import Mathlib

/-!
Shallow embedding of src/main.py (a FastAPI commitments CRUD app) and
verification of its specification claims.

The database tables are modelled as lists of records; a request session is
an `Option Nat` holding the `user_id` value stored in the session cookie
(absent session = `none`).  Each route handler is embedded as a pure
function from the application state (and the request's session and form
fields) to a `Response` together with the resulting state (and session,
for the handlers that can write it).

Where the Python source evaluates a name that is not bound in any
enclosing scope, or accesses an attribute that does not exist, the
embedding returns the `Response.pyError` outcome carrying the exception
the interpreter raises; each such place is annotated with the source line
it comes from.
-/

/-- A row of the `users` table.  The model at src/main.py lines 40-46
defines only the columns `id`, `username` and `created_at` (the
`created_at` timestamp plays no role in any claim and is omitted);
in particular there is NO `password_hash` column, although
`signup_post` (line 118) and `login_post` (line 134) use one. -/
structure UserRec where
  id : Nat
  username : String
deriving DecidableEq, Repr

/-- A row of the `commitments` table.  The model at src/main.py lines
48-55 defines only `id`, `user_id`, `commitment_text` and `created_at`
(timestamp again omitted); there is NO `status`, `outcome_notes`,
`declared_confidence_pct` or `deadline` column, although the dashboard
and resolve handlers use all four. -/
structure CommitmentRec where
  id : Nat
  user_id : Nat
  commitment_text : String
deriving DecidableEq, Repr

/-- The persistent application state: the two database tables, in row
order (list order models table insertion order; `.first()` on an
unordered query returns the first matching row in that order). -/
structure AppState where
  users : List UserRec
  commitments : List CommitmentRec
deriving DecidableEq, Repr

/-- Observable outcome of a request:
a redirect, a rendered template carrying an optional inline error
message, the resolve template carrying the commitment it renders, or an
uncaught Python exception (the framework turns it into a 500 response). -/
inductive Response where
  | redirect (url : String)
  | template (name : String) (error : Option String)
  | resolvePage (commitment : CommitmentRec) (error : Option String)
  | pyError (exc : String)
deriving DecidableEq, Repr

/-- The exception raised where `signup_post` (src line 114), `login_post`
(src line 133) and `dashboard` (src line 153) evaluate names that are not
bound in their scope. -/
def nameErrorDb : String := "NameError: name db is not defined"

/-- The exception raised at src line 153: the filter expression evaluates
the bare name `user_id`, which is bound nowhere in `dashboard`. -/
def nameErrorUserId : String := "NameError: name user_id is not defined"

/-- The exception raised at src line 143: `starlette.requests.Request`
has no method `clear` (the session dict does, the request does not). -/
def attrErrorClear : String := "AttributeError: Request object has no attribute clear"

/-- The exception src line 224 would raise if a commitment were ever
found: the mapped `Commitment` class has no `status` attribute. -/
def attrErrorStatus : String := "AttributeError: Commitment object has no attribute status"

/-- Python str.strip with no argument: removes whitespace from both ends
of the string (restricted here to the ASCII whitespace the inputs under
consideration can contain). -/
def pyStrip (s : String) : String :=
  ⟨((s.data.dropWhile Char.isWhitespace).reverse.dropWhile Char.isWhitespace).reverse⟩

/-- get_current_user, src lines 87-91.  Reads `user_id` from the session
dict (`none` when absent); Python `if not user_id` also treats the
integer 0 as absent; otherwise queries the users table for that id and
returns the first match or `None`.  Total by construction: it returns an
absence rather than raising. -/
def get_current_user (st : AppState) (sess : Option Nat) : Option UserRec :=
  match sess with
  | none => none
  | some uid =>
      if uid = 0 then none
      else st.users.find? (fun u => u.id == uid)

/-- signup_post, src lines 108-124.  Strips the username; an empty
username or password re-renders the signup form with an error.  The next
statement (line 114) evaluates `db.query(...)`, but no name `db` is
bound in the handler (its signature declares no `db = Depends(get_db)`
parameter and no module-level `db` exists), so Python raises NameError
there: no duplicate check, user creation or session write is ever
reached.  (Had `db` been bound, `User(username=..., password_hash=...)`
at line 118 would raise TypeError, `password_hash` not being a mapped
column.) -/
def signup_post (st : AppState) (sess : Option Nat) (username password : String) :
    Response × AppState × Option Nat :=
  let username := pyStrip username
  if username = "" ∨ password = "" then
    (Response.template "signup.html" (some "Username and password required."), st, sess)
  else
    (Response.pyError nameErrorDb, st, sess)

/-- login_post, src lines 131-138.  Its first statement (line 133)
evaluates `db.query(...)` with the name `db` unbound, exactly as in
`signup_post`, so every call raises NameError before any credential is
examined.  (Had `db` been bound, the known-user path would read
`user.password_hash` at line 134, an attribute the mapped `User` class
does not have, raising AttributeError, while the unknown-user path would
render the uniform message of line 135.) -/
def login_post (st : AppState) (sess : Option Nat) (username password : String) :
    Response × AppState × Option Nat :=
  (Response.pyError nameErrorDb, st, sess)

/-- logout, src lines 141-144.  Calls `request.clear()`; the request
object has no `clear` method (the intended call is
`request.session.clear()`), so AttributeError is raised and the session
is left untouched. -/
def logout (st : AppState) (sess : Option Nat) :
    Response × AppState × Option Nat :=
  (Response.pyError attrErrorClear, st, sess)

/-- dashboard, src lines 147-154.  Unauthenticated callers are
redirected to the login page.  For an authenticated user the query
filter at line 153 evaluates the bare name `user_id`, which is bound
nowhere in the function (the column is `Commitment.user_id`), so Python
raises NameError before any row is fetched.  (Were that fixed, the
`order_by(Commitment.deadline...)` clause would raise AttributeError,
the mapped class having no `deadline` attribute.) -/
def dashboard (st : AppState) (sess : Option Nat) : Response × AppState :=
  match get_current_user st sess with
  | none => (Response.redirect "/login", st)
  | some _ => (Response.pyError nameErrorUserId, st)

/-- The clamp expression written at src line 182:
`max(0, min(100, int(declared_confidence_pct)))`.  At runtime this line
is never reached (see `commitment_new_post`), and the name
`declared_confidence_pct` it reads is unbound there anyway. -/
def clampPct (x : Int) : Int := max 0 (min 100 x)

/-- commitment_new_post, src lines 164-193.  The handler's signature
declares only `commitment_text` as a form field: the form's
`declared_confidence_pct` and `deadline` values are never received.
After redirecting unauthenticated callers and rejecting blank text, the
`try` block at line 178 evaluates the unbound name `deadline`; the
resulting NameError is swallowed by the bare `except Exception`
(line 179), so the handler re-renders the form with the deadline error
for every input.  The clamp at line 182 and the `db.add`/`db.commit` at
lines 190-191 are unreachable: no commitment is ever persisted. -/
def commitment_new_post (st : AppState) (sess : Option Nat) (commitment_text : String) :
    Response × AppState :=
  match get_current_user st sess with
  | none => (Response.redirect "/login", st)
  | some _ =>
      if pyStrip commitment_text = "" then
        (Response.template "commitment_new.html" (some "Commitment text required."), st)
      else
        (Response.template "commitment_new.html" (some "Invalid deadline format."), st)

/-- commitment_resolve_get, src lines 196-206.  The query at line 202 is
`filter(Commitment.id, Commitment.user_id == user.id)`: the first
criterion is the bare `id` column, a SQL truthiness test (true for every
nonzero id), and the path parameter `commitment_id` is never compared at
all.  The query therefore returns the first commitment owned by the
calling user whose id is nonzero, whatever id the URL names; only a user
owning no commitment gets the not-found redirect. -/
def commitment_resolve_get (st : AppState) (sess : Option Nat) (commitment_id : Nat) :
    Response × AppState :=
  match get_current_user st sess with
  | none => (Response.redirect "/login", st)
  | some user =>
      match st.commitments.find? (fun c => c.id != 0 && c.user_id == user.id) with
      | none => (Response.redirect "/dashboard", st)
      | some c => (Response.resolvePage c none, st)

/-- commitment_resolve_post, src lines 208-234.  The query at line 220
is `filter(Commitment.id == commitment_id, Commitment == user.id)`: the
second criterion compares the mapped CLASS itself with an integer, which
is the Python value `False` (no `__eq__` is defined on the class), and
SQLAlchemy renders the boolean singleton as SQL FALSE, so the query
matches no row for any input and every request takes the not-found
redirect of line 222.  The status guard (line 224), the status check
(line 227) and the update/commit (lines 230-232) are unreachable; were a
row ever found, line 224 would raise AttributeError, the mapped class
having no `status` attribute.  (A SQL dialect that rejects the boolean
would instead error the request; in neither reading is the status check
reached.) -/
def commitment_resolve_post (st : AppState) (sess : Option Nat) (commitment_id : Nat)
    (status : String) (outcome_notes : Option String) : Response × AppState :=
  match get_current_user st sess with
  | none => (Response.redirect "/login", st)
  | some _user =>
      match st.commitments.find? (fun c => c.id == commitment_id && false) with
      | none => (Response.redirect "/dashboard", st)
      | some _c => (Response.pyError attrErrorStatus, st)

/-- Process environment at startup: the two configuration variables the
module reads (src lines 25 and 31), `none` when the variable is unset. -/
structure Env where
  database_url : Option String
  secret_key : Option String
deriving DecidableEq, Repr

/-- What module import produces on success: the engine URL and the
`secret_key` argument handed to `SessionMiddleware` at src line 65
(`None` when SECRET_KEY is unset — line 31 reads it without any check). -/
structure StartedApp where
  db_url : String
  middleware_secret : Option String
deriving DecidableEq, Repr

/-- The message of the RuntimeError raised at src line 27. -/
def dbUrlErrorMsg : String :=
  "DATABASE_URL is not set. Please export it before running the app."

/-- Startup configuration, src lines 25-31 and 64-65.  `os.getenv`
returns `None` for an unset variable and the stored string otherwise;
the guard is `if not DATABASE_URL`, which is true for `None` AND for the
empty string, and in both cases the RuntimeError of line 27 is raised.
SECRET_KEY is read with no check and passed through to the session
middleware. -/
def startupConfig (e : Env) : Except String StartedApp :=
  match e.database_url with
  | none => Except.error dbUrlErrorMsg
  | some url =>
      if url = "" then Except.error dbUrlErrorMsg
      else Except.ok ⟨url, e.secret_key⟩

/-- True when module import aborts with the fatal configuration error. -/
def startupFails (e : Env) : Bool :=
  match startupConfig e with
  | Except.error _ => true
  | Except.ok _ => false

/-- UTF-8 encoding of one Unicode scalar value, as produced when the
password string is encoded before being handed to the bcrypt backend. -/
def utf8Bytes (c : Char) : List Nat :=
  let n := c.toNat
  if n < 0x80 then [n]
  else if n < 0x800 then
    [0xC0 + n / 0x40, 0x80 + n % 0x40]
  else if n < 0x10000 then
    [0xE0 + n / 0x1000, 0x80 + n / 0x40 % 0x40, 0x80 + n % 0x40]
  else
    [0xF0 + n / 0x40000, 0x80 + n / 0x1000 % 0x40, 0x80 + n / 0x40 % 0x40, 0x80 + n % 0x40]

/-- UTF-8 encoding of a password given as its list of characters. -/
def utf8Encode : List Char → List Nat
  | [] => []
  | c :: cs => utf8Bytes c ++ utf8Encode cs

/-- The byte string the bcrypt backend actually digests for an input
string: passlib encodes the string as UTF-8 and the bcrypt algorithm
(passlib truncating silently, its default) uses only the first 72 bytes
of that encoding. -/
def bcryptInput (s : List Char) : List Nat := (utf8Encode s).take 72

/-- hash_password, src lines 81-82: the byte string fed to the salted
bcrypt digest is the bcrypt input of `password[:72]`, the password
truncated to its first 72 CHARACTERS.  The stored hash is a function of
the salt and of these bytes. -/
def hash_password_input (password : List Char) : List Nat :=
  bcryptInput (password.take 72)

/-- verify_password, src lines 84-85: verification recomputes the digest
of the bcrypt input of `plain[:72]` under the stored hash's salt and
compares; it succeeds exactly when these bytes equal the bytes the
stored hash was computed from. -/
def verify_password_input (plain : List Char) : List Nat :=
  bcryptInput (plain.take 72)

/-- Concrete fixtures used by the closed theorems below. -/
def alice : UserRec := ⟨1, "alice"⟩

def bob : UserRec := ⟨2, "bob"⟩

/-- A commitment owned by alice. -/
def aliceCommit : CommitmentRec := ⟨1, 1, "finish report"⟩

/-- A commitment owned by bob. -/
def bobCommit : CommitmentRec := ⟨2, 2, "ship feature"⟩

/-- State with one user (alice, id 1) owning one commitment (id 1). -/
def stA : AppState := ⟨[alice], [aliceCommit]⟩

/-- State with users alice (id 1) and bob (id 2), each owning one
commitment (ids 1 and 2). -/
def stAB : AppState := ⟨[alice, bob], [aliceCommit, bobCommit]⟩

/-- The empty state: no users, no commitments. -/
def stEmpty : AppState := ⟨[], []⟩

/-- An 80-character password of letters a. -/
def pwA : List Char := List.replicate 80 'a'

/-- A password agreeing with `pwA` on its first 72 bytes and differing
after them. -/
def pwB : List Char := List.replicate 72 'a' ++ List.replicate 8 'b'

-- ---------------------------------------------------------------------
-- Theorems
-- ---------------------------------------------------------------------

/-- The ownership filter of the resolve POST (src line 220) contains the
constant-false conjunct, so the query finds no row in any table. -/
theorem find?_resolve_filter_none (l : List CommitmentRec) (cid : Nat) :
    l.find? (fun c => c.id == cid && false) = none := by
  induction l with
  | nil => rfl
  | cons a t ih => simp [List.find?, ih]

/-- For every state, session, id, status and notes, the resolve POST
handler leaves the state unchanged and answers with a redirect (to the
login page when unauthenticated, otherwise the not-found redirect to the
dashboard, since the filter of src line 220 matches no row), never
reaching the only-open guard of line 224. -/
theorem commitment_resolve_post_always_redirects (st : AppState) (sess : Option Nat)
    (cid : Nat) (status : String) (notes : Option String) :
    (commitment_resolve_post st sess cid status notes).2 = st ∧
    ((commitment_resolve_post st sess cid status notes).1 = Response.redirect "/login" ∨
     (commitment_resolve_post st sess cid status notes).1 = Response.redirect "/dashboard") := by
  unfold commitment_resolve_post
  cases get_current_user st sess with
  | none => exact ⟨rfl, Or.inl rfl⟩
  | some u =>
      rw [find?_resolve_filter_none]
      exact ⟨rfl, Or.inr rfl⟩

/-- C1: the claim says resolve succeeds at most once and that a second
resolve by the owner fails with ValidationError leaving the values of
the first resolution untouched.  On the code, resolve never succeeds at
all and never returns the validation error: with alice (id 1) logged in
and owning commitment 1, even the first resolve attempt is answered by
the not-found redirect with the state unchanged, and the second attempt
receives the identical not-found answer, never the validation error of
src line 225 (see `commitment_resolve_post_always_redirects` for the
general statement: the filter of line 220 matches no row in any state). -/
theorem commitment_resolve_post_never_resolves :
    commitment_resolve_post stA (some 1) 1 "completed" (some "done early") =
      (Response.redirect "/dashboard", stA) ∧
    commitment_resolve_post stA (some 1) 1 "failed" none =
      (Response.redirect "/dashboard", stA) := by
  exact ⟨by decide, by decide⟩

/-- C2: the claim says getForResolve on an id not owned by the caller
fails with NotFound exactly as for a nonexistent id.  On the code the
GET query (src line 202) never compares the requested id: bob (id 2,
owning commitment 2) requesting the resolve page for alice's commitment
id 1 is served the resolve page FOR HIS OWN commitment 2 instead of the
not-found redirect, and requesting the nonexistent id 999 yields the
same page. -/
theorem commitment_resolve_get_ignores_id :
    commitment_resolve_get stAB (some 2) 1 = (Response.resolvePage bobCommit none, stAB) ∧
    commitment_resolve_get stAB (some 2) 999 = (Response.resolvePage bobCommit none, stAB) := by
  exact ⟨by decide, by decide⟩

/-- C3: the claim says create persists the confidence input clamped into
[0,100].  On the code, create never persists anything: with alice logged
in and nonblank text, the handler (which does not even declare the
confidence and deadline form fields as parameters) always re-renders the
form with the deadline error and leaves the state unchanged, so no
confidence value is ever stored; the clamp expression of src line 182
(shown here on the claim's inputs) is dead code. -/
theorem commitment_new_post_never_persists :
    commitment_new_post stA (some 1) "finish report" =
      (Response.template "commitment_new.html" (some "Invalid deadline format."), stA) ∧
    clampPct (-5) = 0 ∧ clampPct 150 = 100 ∧ clampPct 80 = 80 := by
  exact ⟨by decide, by decide, by decide, by decide⟩

/-- C4: the claim says a signup with a fresh nonempty username and
password creates the user and establishes a session.  On the code, any
signup that passes the emptiness check crashes with NameError (the name
`db` is unbound in the handler, src line 114): no user is created and no
session is established; only the empty-input validation branch works. -/
theorem signup_post_crashes_on_valid_input :
    signup_post stEmpty none "alice" "s3cret" =
      (Response.pyError nameErrorDb, stEmpty, none) ∧
    signup_post stEmpty none "" "s3cret" =
      (Response.template "signup.html" (some "Username and password required."), stEmpty, none) := by
  exact ⟨by decide, by decide⟩

/-- Every character encodes to at least one byte. -/
theorem utf8Bytes_length_pos (c : Char) : 1 ≤ (utf8Bytes c).length := by
  by_cases h1 : c.toNat < 128
  · simp [utf8Bytes, h1]
  · by_cases h2 : c.toNat < 2048
    · simp [utf8Bytes, h1, h2]
    · by_cases h3 : c.toNat < 65536
      · simp [utf8Bytes, h1, h2, h3]
      · simp [utf8Bytes, h1, h2, h3]

/-- The encoding is a list homomorphism. -/
theorem utf8Encode_append (a b : List Char) :
    utf8Encode (a ++ b) = utf8Encode a ++ utf8Encode b := by
  induction a with
  | nil => rfl
  | cons c t ih => simp [utf8Encode, ih]

/-- The encoding of a string is at least as long as the string. -/
theorem length_le_utf8Encode_length (s : List Char) :
    s.length ≤ (utf8Encode s).length := by
  induction s with
  | nil => simp [utf8Encode]
  | cons c t ih =>
      have hone := utf8Bytes_length_pos c
      simp only [utf8Encode, List.length_append, List.length_cons]
      omega

/-- The character-level truncation of hash_password composed with the
bcrypt backend's byte-level truncation equals plain truncation of the
encoded password to its first 72 bytes. -/
theorem hash_password_input_eq_take72 (p : List Char) :
    hash_password_input p = (utf8Encode p).take 72 := by
  unfold hash_password_input bcryptInput
  by_cases hlen : p.length ≤ 72
  · rw [List.take_of_length_le hlen]
  · have hsplit : p.take 72 ++ p.drop 72 = p := List.take_append_drop 72 p
    have henc : utf8Encode p = utf8Encode (p.take 72) ++ utf8Encode (p.drop 72) := by
      conv_lhs => rw [← hsplit]
      rw [utf8Encode_append]
    have hchars : (p.take 72).length = 72 := by
      rw [List.length_take]
      omega
    have hbytes : 72 ≤ (utf8Encode (p.take 72)).length := by
      have := length_le_utf8Encode_length (p.take 72)
      omega
    rw [henc, List.take_append_eq_append_take, Nat.sub_eq_zero_of_le hbytes,
      List.take_zero, List.append_nil]

/-- C5: hash_password truncates to 72 characters (`password[:72]`), and
the bcrypt backend then uses only the first 72 bytes of the UTF-8
encoding; the composition equals truncation of the encoded password to
its first 72 bytes, verify_password applies the identical truncation,
and two passwords agreeing on their first 72 encoded bytes produce the
same digested byte string — hence, for a given salt, the same stored
hash — and verify against each other. -/
theorem hash_password_truncates_to_72_bytes (p1 p2 : List Char)
    (h : (utf8Encode p1).take 72 = (utf8Encode p2).take 72) :
    hash_password_input p1 = (utf8Encode p1).take 72 ∧
    verify_password_input p1 = hash_password_input p1 ∧
    hash_password_input p1 = hash_password_input p2 ∧
    verify_password_input p2 = hash_password_input p1 := by
  refine ⟨hash_password_input_eq_take72 p1, rfl, ?_, ?_⟩
  · rw [hash_password_input_eq_take72 p1, hash_password_input_eq_take72 p2, h]
  · show hash_password_input p2 = hash_password_input p1
    rw [hash_password_input_eq_take72 p1, hash_password_input_eq_take72 p2, h]

/-- C5 witness: the 80-letter password `pwA` and the password `pwB` that
agrees with it only on the first 72 bytes feed the same byte string to
the salted digest. -/
theorem hash_password_truncates_to_72_bytes_witness :
    hash_password_input pwA = hash_password_input pwB :=
  (hash_password_truncates_to_72_bytes pwA pwB (by decide)).2.2.1

/-- C6: the claim says every failed login returns an AuthError whose
user-visible message is the same for unknown-user and wrong-password
failures.  On the code no login returns the auth error at all: the
handler's first statement (src line 133) evaluates the unbound name
`db`, so a login for the unknown username ghost and a login for the
existing user alice with a wrong password both crash with the same
NameError before any credential is examined. -/
theorem login_post_crashes_before_credentials :
    login_post stA none "ghost" "whatever" = (Response.pyError nameErrorDb, stA, none) ∧
    login_post stA none "alice" "wrongpw" = (Response.pyError nameErrorDb, stA, none) := by
  exact ⟨by decide, by decide⟩

/-- C7: the claim says list returns exactly the caller's commitments
ordered by deadline.  On the code, the dashboard of any authenticated
user crashes with NameError (the filter of src line 153 reads the
unbound name `user_id`) and returns no list at all; shown for alice
(id 1), who owns commitment 1. -/
theorem dashboard_crashes_for_authenticated_user :
    dashboard stA (some 1) = (Response.pyError nameErrorUserId, stA) := by
  decide

/-- C8: get_current_user resolves a session to a user or returns an
absence, never raising: it is total; an absent session yields none, a
session naming a user id matching no stored user (a deleted user) yields
none, and whenever it yields a user, that user is a stored record whose
id is exactly the one the session carries. -/
theorem get_current_user_total (st : AppState) (sess : Option Nat) :
    (sess = none → get_current_user st sess = none) ∧
    (∀ uid, sess = some uid → (∀ u ∈ st.users, u.id ≠ uid) →
      get_current_user st sess = none) ∧
    (∀ u, get_current_user st sess = some u → u ∈ st.users ∧ sess = some u.id) := by
  refine ⟨?_, ?_, ?_⟩
  · intro h
    rw [h]
    rfl
  · intro uid hs habs
    rw [hs]
    unfold get_current_user
    by_cases h0 : uid = 0
    · simp [h0]
    · simp only [h0, if_false]
      exact List.find?_eq_none.mpr (fun u hu => by
        simpa using habs u hu)
  · intro u hu
    cases sess with
    | none => exact absurd hu (by simp [get_current_user])
    | some uid =>
        unfold get_current_user at hu
        by_cases h0 : uid = 0
        · simp [h0] at hu
        · simp only [h0, if_false] at hu
          have hmem := List.mem_of_find?_eq_some hu
          have hpred := List.find?_some hu
          have hid : u.id = uid := by simpa using hpred
          exact ⟨hmem, by rw [hid]⟩

/-- C8 witness: in the empty state, a session referencing the deleted
user id 7 resolves to an absence. -/
theorem get_current_user_total_witness :
    get_current_user stEmpty (some 7) = none :=
  (get_current_user_total stEmpty (some 7)).2.1 7 rfl
    (fun u hu => absurd hu (by simp [stEmpty]))

/-- C9: the claim says logout clears the session, is idempotent, and
raises no error.  On the code, logout calls the nonexistent method
`request.clear()` (src line 143) and crashes with AttributeError, and
the session is NOT cleared: with user 1 logged in the session still
holds user id 1 afterwards (and the same crash recurs on a cleared
session). -/
theorem logout_crashes_and_keeps_session :
    logout stA (some 1) = (Response.pyError attrErrorClear, stA, some 1) ∧
    logout stA none = (Response.pyError attrErrorClear, stA, none) := by
  exact ⟨by decide, by decide⟩

/-- C10 counterexample: with DATABASE_URL set to the empty string — so
the variable is NOT unset — startup still raises the fatal configuration
error, refuting the only-if direction of the claim. -/
theorem startup_fatal_with_empty_url :
    startupConfig ⟨some "", none⟩ = Except.error dbUrlErrorMsg ∧
    Env.database_url ⟨some "", none⟩ ≠ none := by
  exact ⟨rfl, by decide⟩

/-- C10 (amended): startup raises the fatal configuration error if and
only if DATABASE_URL is unset or set to the empty string; whenever
DATABASE_URL holds a nonempty string, startup succeeds — in particular
with SECRET_KEY absent — and the session middleware receives exactly the
SECRET_KEY value the environment holds (the absence value when it is
unset). -/
theorem startup_fatal_iff_db_url_unset_or_empty (e : Env) :
    (startupFails e = true ↔ (e.database_url = none ∨ e.database_url = some "")) ∧
    (∀ url, e.database_url = some url → url ≠ "" →
      startupConfig e = Except.ok ⟨url, e.secret_key⟩) := by
  constructor
  · unfold startupFails startupConfig
    cases e.database_url with
    | none => simp
    | some url =>
        by_cases h : url = ""
        · simp [h]
        · simp [h]
  · intro url hurl hne
    unfold startupConfig
    rw [hurl]
    simp [hne]

/-- C10 witness: with DATABASE_URL nonempty and SECRET_KEY absent,
startup succeeds and the middleware is installed with no signing
secret. -/
theorem startup_fatal_iff_witness :
    startupConfig ⟨some "sqlite:///app.db", none⟩ =
      Except.ok ⟨"sqlite:///app.db", none⟩ :=
  (startup_fatal_iff_db_url_unset_or_empty ⟨some "sqlite:///app.db", none⟩).2
    "sqlite:///app.db" rfl (by decide)
